import Mathlib

/-!
Shallow embedding of three adapter classes of the qiskit-aqua fragment:
`HDF5Driver` (src/qiskit/chemistry/drivers/hdf5d/hdf5driver.py),
`PyQuanteDriver` (src/qiskit/chemistry/drivers/pyquanted/pyquantedriver.py)
and the abstract base `VariationalForm`
(src/qiskit/aqua/components/variational_forms/variational_form.py).

Python exceptions are modelled with `Except PyError`; the filesystem is an
explicit predicate `String → Bool` (existence of a regular file); machine
floats of the configuration (`tol`) are modelled as rationals, with the
Python textual rendering of a float abstracted as an explicit function
argument where a float is formatted.
-/

/-- The Python exception kinds raised by the embedded code: the chemistry
configuration error, the schema-validation error of the aqua `validate`
helper (carrying the offending field name), Python `AttributeError`,
Python `LookupError`, and Python `TypeError` (abstract-class instantiation). -/
inductive PyError where
  | qiskitChemistryError (msg : String)
  | validationError (field : String)
  | attributeError (msg : String)
  | lookupError (msg : String)
  | typeError (msg : String)
deriving DecidableEq, Repr

/-- Models Python `'sep'.join(parts)` (`str.join`). Used for `';'.join(atoms)`
and `'\n'.join(cfg)` in pyquantedriver.py. -/
def pyJoin (sep : String) : List String → String
  | [] => ""
  | [x] => x
  | x :: y :: xs => x ++ sep ++ pyJoin sep (y :: xs)

/-- Models Python `s.split(sep)` for a single-character separator, at the
character-list level (used for both `'/'`-splitting in path normalisation
and `'\n'`-splitting of rendered configuration strings). -/
def splitCharsOn (sep : Char) : List Char → List (List Char)
  | [] => [[]]
  | c :: cs =>
    if c = sep then [] :: splitCharsOn sep cs
    else
      match splitCharsOn sep cs with
      | r :: rs => (c :: r) :: rs
      | [] => [[c]]

/-- Models Python `s.split('\n')` on strings. -/
def splitOnNewlines (s : String) : List String :=
  (splitCharsOn '\n' s.data).map String.mk

/-- Models Python `atoms.replace('\n', ';')` from pyquantedriver.py line 126:
for the single-character pattern and replacement this is exactly a
character-wise substitution. -/
def replaceNewlines (s : String) : String :=
  String.mk (s.data.map (fun c => if c = '\n' then ';' else c))

/-- Models the Python standard library `posixpath.isabs`: a path is absolute
iff it begins with a slash. -/
def isabs (p : String) : Bool :=
  match p.data with
  | c :: _ => c = '/'
  | [] => false

/-- Models the Python standard library `posixpath.join` for two components:
if the second is absolute it wins; otherwise it is appended, inserting a
slash unless the first part is empty or already ends in a slash. -/
def joinPath (a b : String) : String :=
  if isabs b then b
  else if a.data = [] ∨ a.data.getLast? = some '/' then a ++ b
  else a ++ "/" ++ b

/-- The number of leading slashes `posixpath.normpath` preserves: two for a
path starting with exactly two slashes, one for any other absolute path,
zero otherwise. -/
def initialSlashCount (l : List Char) : Nat :=
  match l with
  | '/' :: '/' :: '/' :: _ => 1
  | '/' :: '/' :: _ => 2
  | '/' :: _ => 1
  | _ => 0

/-- One step of `posixpath.normpath`'s component scan: drop empty and `.`
components, push ordinary components, resolve `..` against the stack. -/
def normStep (initialSlashes : Nat) (newComps : List (List Char)) (comp : List Char) :
    List (List Char) :=
  if comp = [] ∨ comp = ['.'] then newComps
  else if comp ≠ ['.', '.'] ∨ (initialSlashes = 0 ∧ newComps = []) ∨
      newComps.getLast? = some ['.', '.'] then
    newComps ++ [comp]
  else if newComps ≠ [] then newComps.dropLast
  else newComps

/-- Models Python `'/'.join` at the character-list level. -/
def joinChars (sep : Char) : List (List Char) → List Char
  | [] => []
  | [x] => x
  | x :: y :: xs => x ++ sep :: joinChars sep (y :: xs)

/-- Models the Python standard library `posixpath.normpath`. -/
def normpath (p : String) : String :=
  if p.data = [] then "." else
  let initialSlashes := initialSlashCount p.data
  let comps := splitCharsOn '/' p.data
  let newComps := comps.foldl (normStep initialSlashes) []
  let res := List.replicate initialSlashes '/' ++ joinChars '/' newComps
  if res = [] then "." else String.mk res

/-- Models the Python standard library `posixpath.abspath` with the current
working directory passed explicitly: relative paths are joined onto the
working directory, and the result is normalised. -/
def abspath (cwd p : String) : String :=
  normpath (if isabs p then p else joinPath cwd p)

/-- Arguments handed to `compute_integrals` by `PyQuanteDriver.run`
(pyquantedriver.py lines 156-163). -/
structure IntegralArgs where
  atoms : String
  units : String
  charge : Int
  multiplicity : Int
  basis : String
  hf_method : String
  tol : ℚ
  maxiters : Int
deriving DecidableEq, Repr

/-- Modelled from the spec: the external `QMolecule` data object "carries
atomic geometry, integrals, and provenance fields (origin driver name,
origin driver configuration string)"; its payload is populated either by the
HDF5 load routine from a file path or by the delegated integral computation. -/
inductive MoleculeData where
  | unloaded (path : String)
  | hdf5 (path : String)
  | integrals (args : IntegralArgs)
deriving DecidableEq, Repr

/-- Modelled from the spec: the molecule object with its two provenance
fields and its payload. -/
structure QMolecule where
  origin_driver_name : String
  origin_driver_config : String
  payload : MoleculeData
deriving DecidableEq, Repr

/-- Modelled from the spec: `QMolecule(hdf5_file)` — a fresh, not yet loaded
molecule object remembering its file path. -/
def QMolecule.mkFromFile (path : String) : QMolecule :=
  { origin_driver_name := "", origin_driver_config := "", payload := .unloaded path }

/-- Modelled from the spec: `molecule.load()` populates the object from its
file ("constructs a new molecule object from that path and invokes its load
operation, returning the populated object"). -/
def QMolecule.load (m : QMolecule) : QMolecule :=
  match m.payload with
  | .unloaded p => { m with payload := .hdf5 p }
  | _ => m

/-- The HDF5 driver state: the stored input path (defaulted in the
initializer) and the optional work directory (hdf5driver.py lines 30-51). -/
structure HDF5Driver where
  _hdf5_input : String
  _work_path : Option String
deriving DecidableEq, Repr

/-- `HDF5Driver.__init__` (hdf5driver.py lines 30-41): a missing input path
defaults to `"molecule.hdf5"`; the work path starts unset. -/
def HDF5Driver.init (hdf5_input : Option String) : HDF5Driver :=
  { _hdf5_input := hdf5_input.getD "molecule.hdf5", _work_path := none }

/-- The `work_path` property getter (hdf5driver.py lines 43-46). -/
def HDF5Driver.work_path (d : HDF5Driver) : Option String := d._work_path

/-- The `work_path` property setter (hdf5driver.py lines 48-51). -/
def HDF5Driver.set_work_path (d : HDF5Driver) (new_work_path : Option String) : HDF5Driver :=
  { d with _work_path := new_work_path }

/-- The path-resolution phase of `HDF5Driver.run` (hdf5driver.py lines
54-56): if a work path is set and the stored input is relative, resolve the
join of work path and input to an absolute normalised path; otherwise use
the stored input as-is. -/
def HDF5Driver.resolvePath (cwd : String) (d : HDF5Driver) : String :=
  let hdf5_file := d._hdf5_input
  match d._work_path with
  | some wp => if isabs hdf5_file then hdf5_file else abspath cwd (joinPath wp hdf5_file)
  | none => hdf5_file

/-- `HDF5Driver.run` (hdf5driver.py lines 53-63), with the filesystem
(`os.path.isfile`) and current working directory explicit, in state-passing
form: the second component is the driver state after the call (the method
body never assigns to `self`, so it is returned unchanged). -/
def HDF5Driver.run (fs : String → Bool) (cwd : String) (d : HDF5Driver) :
    Except PyError QMolecule × HDF5Driver :=
  let hdf5_file := HDF5Driver.resolvePath cwd d
  if fs hdf5_file = false then
    (.error (.lookupError ("HDF5 file not found: " ++ hdf5_file)), d)
  else
    (.ok (QMolecule.load (QMolecule.mkFromFile hdf5_file)), d)

/-- Modelled from the spec: the `UnitsType` enum of the driver package
("distance units (enumerated: angstrom, bohr)"); its `value` strings are the
enum payloads referenced by the schema's `enum` lists. -/
inductive UnitsType where
  | ANGSTROM
  | BOHR
deriving DecidableEq, Repr

/-- The `.value` payload of a `UnitsType` member. -/
def UnitsType.value : UnitsType → String
  | .ANGSTROM => "Angstrom"
  | .BOHR => "Bohr"

/-- Modelled from the spec: the `HFMethodType` enum ("Hartree-Fock variant
(enumerated: restricted, restricted-open, unrestricted)"). -/
inductive HFMethodType where
  | RHF
  | ROHF
  | UHF
deriving DecidableEq, Repr

/-- The `.value` payload of an `HFMethodType` member. -/
def HFMethodType.value : HFMethodType → String
  | .RHF => "rhf"
  | .ROHF => "rohf"
  | .UHF => "uhf"

/-- `BasisType` (pyquantedriver.py lines 28-32). -/
inductive BasisType where
  | BSTO3G
  | B631G
  | B631GSS
deriving DecidableEq, Repr

/-- The `.value` payload of a `BasisType` member. -/
def BasisType.value : BasisType → String
  | .BSTO3G => "sto3g"
  | .B631G => "6-31g"
  | .B631GSS => "6-31g**"

/-- The dynamically-typed `atoms` argument of `PyQuanteDriver.__init__`: a
Python list, a Python string, or any other object (carried by its display
text, used only in the error message). -/
inductive AtomsArg where
  | fromList (xs : List String)
  | fromString (s : String)
  | other (reprText : String)
deriving DecidableEq, Repr

/-- A constructor argument expected to be an enum member but possibly passed
as a plain string: `enum` carries the member, `raw` a plain string, which
(like any object without a `value` attribute) makes the constructor's
`.value` access raise `AttributeError`. -/
inductive EnumArg (α : Type) where
  | enum (e : α)
  | raw (s : String)
deriving DecidableEq, Repr

/-- Python attribute access `x.value`: succeeds on an enum member, raises
`AttributeError` on a plain string. -/
def EnumArg.value {α : Type} (valueOf : α → String) : EnumArg α → Except PyError String
  | .enum e => .ok (valueOf e)
  | .raw _ => .error (.attributeError "'str' object has no attribute 'value'")

/-- The validated PyQuante driver state (pyquantedriver.py lines 132-140):
the eight configuration fields as stored on `self`. -/
structure PyQuanteDriver where
  _atoms : String
  _units : String
  _charge : Int
  _multiplicity : Int
  _basis : String
  _hf_method : String
  _tol : ℚ
  _maxiters : Int
deriving DecidableEq, Repr

/-- Modelled from the spec: `validate(locals(), _INPUT_SCHEMA)` — the aqua
schema validator (whose own code is outside this fragment) checks "every
field's value against its declared type/enum/bounds schema" and fails
"naming the first invalid field". The checks below are exactly those of
`_INPUT_SCHEMA` (pyquantedriver.py lines 41-94) that are expressible on the
typed arguments: the enum memberships of `units`, `basis` and `hf_method`,
and `minimum: 1` on `maxiters`. The type checks (`atoms`/`units`/`basis`/
`hf_method` strings, `charge`/`multiplicity`/`maxiters` integers, `tol` a
number) hold by the typing of the embedding; the schema declares no bound
on `tol`, `charge` or `multiplicity`. -/
def validateSchema (atoms units : String) (charge multiplicity : Int)
    (basis hf_method : String) (tol : ℚ) (maxiters : Int) : Except PyError Unit :=
  if ¬ (units = UnitsType.ANGSTROM.value ∨ units = UnitsType.BOHR.value) then
    .error (.validationError "units")
  else if ¬ (basis = BasisType.BSTO3G.value ∨ basis = BasisType.B631G.value ∨
      basis = BasisType.B631GSS.value) then
    .error (.validationError "basis")
  else if ¬ (hf_method = HFMethodType.RHF.value ∨ hf_method = HFMethodType.ROHF.value ∨
      hf_method = HFMethodType.UHF.value) then
    .error (.validationError "hf_method")
  else if maxiters < 1 then
    .error (.validationError "maxiters")
  else
    let _ := atoms
    let _ := charge
    let _ := multiplicity
    let _ := tol
    .ok ()

/-- The tail of `PyQuanteDriver.__init__` after atom normalisation
(pyquantedriver.py lines 128-140): dereference `.value` on `units`, `basis`
and `hf_method` (in that order), run schema validation, then store the
eight fields on the new object. -/
def pyquanteInitRest (atoms : String) (units : EnumArg UnitsType) (charge : Int)
    (multiplicity : Int) (basis : EnumArg BasisType) (hf_method : EnumArg HFMethodType)
    (tol : ℚ) (maxiters : Int) : Except PyError PyQuanteDriver :=
  match EnumArg.value UnitsType.value units with
  | .error e => .error e
  | .ok unitsV =>
    match EnumArg.value BasisType.value basis with
    | .error e => .error e
    | .ok basisV =>
      match EnumArg.value HFMethodType.value hf_method with
      | .error e => .error e
      | .ok hfV =>
        match validateSchema atoms unitsV charge multiplicity basisV hfV tol maxiters with
        | .error e => .error e
        | .ok _ =>
          .ok { _atoms := atoms, _units := unitsV, _charge := charge,
                _multiplicity := multiplicity, _basis := basisV, _hf_method := hfV,
                _tol := tol, _maxiters := maxiters }

/-- `PyQuanteDriver.__init__` (pyquantedriver.py lines 96-140).
`available` is the outcome of `_check_valid`'s probe for the `pyquante2`
module (lines 142-153): when it is unavailable the initializer raises the
configuration error naming the dependency. Then: reject an `atoms` argument
that is neither a list nor a string; join list input with semicolons;
replace newlines with semicolons in string input; and continue with the
`.value` dereferences, validation and field assignment. -/
def pyquanteInit (available : Bool) (atoms : AtomsArg) (units : EnumArg UnitsType)
    (charge : Int) (multiplicity : Int) (basis : EnumArg BasisType)
    (hf_method : EnumArg HFMethodType) (tol : ℚ) (maxiters : Int) :
    Except PyError PyQuanteDriver :=
  if available then
    match atoms with
    | .other r =>
      .error (.qiskitChemistryError ("Invalid atom input for PYQUANTE Driver '" ++ r ++ "'"))
    | .fromList xs =>
      pyquanteInitRest (pyJoin ";" xs) units charge multiplicity basis hf_method tol maxiters
    | .fromString s =>
      pyquanteInitRest (replaceNewlines s) units charge multiplicity basis hf_method tol maxiters
  else
    .error (.qiskitChemistryError
      "PyQuante2 is not installed. See https://github.com/rpmuller/pyquante2")

/-- The named arguments `PyQuanteDriver.run` passes to `compute_integrals`
(pyquantedriver.py lines 156-163). -/
def PyQuanteDriver.integralArgs (d : PyQuanteDriver) : IntegralArgs :=
  { atoms := d._atoms, units := d._units, charge := d._charge,
    multiplicity := d._multiplicity, basis := d._basis, hf_method := d._hf_method,
    tol := d._tol, maxiters := d._maxiters }

/-- `PyQuanteDriver.run` (pyquantedriver.py lines 155-177): delegate to
`compute_integrals` (passed explicitly, as it lives outside this fragment),
then stamp the provenance name `"PYQUANTE"` and the provenance
configuration string — the newline-join of the eight `field=value` lines in
declaration order plus a final empty entry. `fmtF` is Python's textual
rendering of the float `tol` (a floating-point formatting concern, passed
explicitly). -/
def PyQuanteDriver.run (fmtF : ℚ → String) (compute_integrals : IntegralArgs → QMolecule)
    (d : PyQuanteDriver) : QMolecule :=
  let q_mol := compute_integrals (PyQuanteDriver.integralArgs d)
  let cfg := ["atoms=" ++ d._atoms,
              "units=" ++ d._units,
              "charge=" ++ toString d._charge,
              "multiplicity=" ++ toString d._multiplicity,
              "basis=" ++ d._basis,
              "hf_method=" ++ d._hf_method,
              "tol=" ++ fmtF d._tol,
              "maxiters=" ++ toString d._maxiters,
              ""]
  { q_mol with origin_driver_name := "PYQUANTE",
               origin_driver_config := pyJoin "\n" cfg }

/-- The variational-form state set up by the abstract base constructor
(variational_form.py lines 33-40). Parameter bounds are pairs of optional
rationals; `none` is an unbounded direction. -/
structure VariationalFormState where
  _num_parameters : Nat
  _num_qubits : Nat
  _bounds : List (Option ℚ × Option ℚ)
  _support_parameterized_circuit : Bool
deriving DecidableEq, Repr

/-- `VariationalForm.__init__` (variational_form.py lines 33-40): zero
parameters, zero qubits, empty bounds, parameterized-circuit support off. -/
def VariationalForm.baseInit : VariationalFormState :=
  { _num_parameters := 0, _num_qubits := 0, _bounds := [],
    _support_parameterized_circuit := false }

/-- The names carried by `VariationalForm.__abstractmethods__`: the two
methods marked `@abstractmethod` in variational_form.py (lines 33 and 42). -/
def VariationalForm.abstractmethods : List String :=
  ["__init__", "construct_circuit"]

/-- Models Python's abstract-base-class instantiation rule for
`VariationalForm`: instantiation succeeds (running the base constructor)
only when every abstract method has a concrete override; otherwise it
raises `TypeError` before any object state exists. `overridden` is the set
of abstract methods the attempted class overrides — empty for a direct
instantiation of `VariationalForm`. -/
def VariationalForm.tryInstantiate (overridden : List String) :
    Except PyError VariationalFormState :=
  if VariationalForm.abstractmethods.all (fun m => overridden.contains m) then
    .ok VariationalForm.baseInit
  else
    .error (.typeError "cannot instantiate abstract class VariationalForm with abstract methods")

/-- The `num_parameters` property (variational_form.py lines 55-62). -/
def VariationalForm.num_parameters (s : VariationalFormState) : Nat := s._num_parameters

/-- The `num_qubits` property (variational_form.py lines 78-85). -/
def VariationalForm.num_qubits (s : VariationalFormState) : Nat := s._num_qubits

/-- The `parameter_bounds` property (variational_form.py lines 87-97). -/
def VariationalForm.parameter_bounds (s : VariationalFormState) :
    List (Option ℚ × Option ℚ) := s._bounds

/-- The `support_parameterized_circuit` property getter
(variational_form.py lines 64-71). -/
def VariationalForm.support_parameterized_circuit (s : VariationalFormState) : Bool :=
  s._support_parameterized_circuit

/-- The `preferred_init_points` property (variational_form.py lines
110-113): the base always returns `None`. -/
def VariationalForm.preferred_init_points (_ : VariationalFormState) : Option (List ℚ) :=
  none

/-- Models Python `s.split('\n')[0]`: the first line of a rendered string. -/
def firstLineOf (s : String) : String :=
  String.mk (s.data.takeWhile (fun c => c != '\n'))

theorem string_data_append (a b : String) : (a ++ b).data = a.data ++ b.data := by
  cases a; cases b; rfl

theorem string_mk_data (s : String) : String.mk s.data = s := by
  cases s; rfl

theorem replaceChars_eq_self :
    ∀ (l : List Char), '\n' ∉ l → l.map (fun c => if c = '\n' then ';' else c) = l := by
  intro l h
  induction l with
  | nil => rfl
  | cons c cs ih =>
    rw [List.mem_cons, not_or] at h
    have hne : ¬(c = '\n') := fun e => h.1 e.symm
    simp only [List.map_cons, if_neg hne, ih h.2]

theorem replaceNewlines_eq_self {s : String} (h : '\n' ∉ s.data) : replaceNewlines s = s := by
  unfold replaceNewlines
  rw [replaceChars_eq_self s.data h, string_mk_data]

theorem pyJoin_semicolon_no_newline :
    ∀ (L : List String), (∀ x ∈ L, '\n' ∉ x.data) → '\n' ∉ (pyJoin ";" L).data := by
  intro L
  induction L with
  | nil => intro _ hmem; simp [pyJoin] at hmem
  | cons x xs ih =>
    intro h
    cases xs with
    | nil => exact h x (List.mem_cons_self x [])
    | cons y ys =>
      simp only [pyJoin, string_data_append]
      intro hmem
      rcases List.mem_append.mp hmem with hmem1 | hmem2
      · rcases List.mem_append.mp hmem1 with hx | hsep
        · exact h x (List.mem_cons_self _ _) hx
        · simp at hsep
      · exact ih (fun z hz => h z (List.mem_cons_of_mem _ hz)) hmem2

theorem replaceNewlines_pyJoin (L : List String) (h : ∀ x ∈ L, '\n' ∉ x.data) :
    replaceNewlines (pyJoin ";" L) = pyJoin ";" L :=
  replaceNewlines_eq_self (pyJoin_semicolon_no_newline L h)

theorem splitCharsOn_of_not_mem (sep : Char) :
    ∀ {l : List Char}, sep ∉ l → splitCharsOn sep l = [l] := by
  intro l h
  induction l with
  | nil => rfl
  | cons c cs ih =>
    rw [List.mem_cons, not_or] at h
    have hne : ¬(c = sep) := fun e => h.1 e.symm
    simp only [splitCharsOn, ih h.2, if_neg hne]

theorem splitCharsOn_append (sep : Char) {l1 : List Char} (l2 : List Char) (h : sep ∉ l1) :
    splitCharsOn sep (l1 ++ sep :: l2) = l1 :: splitCharsOn sep l2 := by
  induction l1 with
  | nil => simp [splitCharsOn]
  | cons c cs ih =>
    rw [List.mem_cons, not_or] at h
    have hne : ¬(c = sep) := fun e => h.1 e.symm
    simp only [List.cons_append, splitCharsOn, List.append_eq, ih h.2, if_neg hne]

theorem splitOnNewlines_pyJoin :
    ∀ (L : List String), L ≠ [] → (∀ x ∈ L, '\n' ∉ x.data) →
      splitOnNewlines (pyJoin "\n" L) = L := by
  intro L
  induction L with
  | nil => intro hne; exact absurd rfl hne
  | cons x xs ih =>
    intro _ h
    cases xs with
    | nil =>
      unfold splitOnNewlines
      simp only [pyJoin]
      rw [splitCharsOn_of_not_mem '\n' (h x (List.mem_cons_self _ _))]
      simp [string_mk_data]
    | cons y ys =>
      unfold splitOnNewlines
      have hdata : (pyJoin "\n" (x :: y :: ys)).data
          = x.data ++ '\n' :: (pyJoin "\n" (y :: ys)).data := by
        simp only [pyJoin, string_data_append]
        simp
      rw [hdata, splitCharsOn_append '\n' _ (h x (List.mem_cons_self _ _))]
      have htail := ih (by simp) (fun z hz => h z (List.mem_cons_of_mem _ hz))
      unfold splitOnNewlines at htail
      simp only [List.map_cons, string_mk_data, htail]

theorem takeWhile_append_sep (sep : Char) :
    ∀ (l1 l2 : List Char), sep ∉ l1 →
      (l1 ++ sep :: l2).takeWhile (fun c => c != sep) = l1 := by
  intro l1 l2 h
  induction l1 with
  | nil => simp [List.takeWhile]
  | cons c cs ih =>
    rw [List.mem_cons, not_or] at h
    have hc : (c != sep) = true := by
      simp [bne_iff_ne]
      exact fun e => h.1 e.symm
    simp only [List.cons_append, List.takeWhile_cons, hc, if_true, ih h.2]

theorem firstLineOf_append (x r : String) (h : '\n' ∉ x.data) :
    firstLineOf (x ++ "\n" ++ r) = x := by
  unfold firstLineOf
  rw [string_data_append, string_data_append]
  have : (("\n" : String).data) = ['\n'] := rfl
  rw [this, List.append_assoc, List.singleton_append,
    takeWhile_append_sep '\n' x.data r.data h, string_mk_data]

/-- C2: `HDF5Driver.run` resolves the file path by joining a configured work
directory with a relative input (taking the absolute form), by using an
absolute input as-is (work directory ignored), and by using the input as-is
when no work directory is configured; in particular work directory
`/tmp/work` with input `mol.hdf5` resolves to `/tmp/work/mol.hdf5`. -/
theorem hdf5_resolve_path_spec (cwd : String) (d : HDF5Driver) (wp : String) :
    (d._work_path = some wp → isabs d._hdf5_input = false →
      HDF5Driver.resolvePath cwd d = abspath cwd (joinPath wp d._hdf5_input)) ∧
    (isabs d._hdf5_input = true → HDF5Driver.resolvePath cwd d = d._hdf5_input) ∧
    (d._work_path = none → HDF5Driver.resolvePath cwd d = d._hdf5_input) ∧
    HDF5Driver.resolvePath cwd
      { _hdf5_input := "mol.hdf5", _work_path := some "/tmp/work" } = "/tmp/work/mol.hdf5" := by
  refine ⟨?_, ?_, ?_, ?_⟩
  · intro hw habs
    simp [HDF5Driver.resolvePath, hw, habs]
  · intro habs
    unfold HDF5Driver.resolvePath
    cases hw : d._work_path <;> simp [habs]
  · intro hw
    simp [HDF5Driver.resolvePath, hw]
  · rfl

/-- Witness for C2 at a concrete driver: relative input with work directory,
absolute input, and no work directory. -/
theorem hdf5_resolve_path_spec_witness :
    HDF5Driver.resolvePath "/home" { _hdf5_input := "mol.hdf5", _work_path := some "/tmp/work" }
      = abspath "/home" (joinPath "/tmp/work" "mol.hdf5") ∧
    HDF5Driver.resolvePath "/home" { _hdf5_input := "/abs/mol.hdf5", _work_path := some "/tmp/work" }
      = "/abs/mol.hdf5" ∧
    HDF5Driver.resolvePath "/home" { _hdf5_input := "mol.hdf5", _work_path := none } = "mol.hdf5" :=
  ⟨(hdf5_resolve_path_spec "/home" _ "/tmp/work").1 rfl rfl,
   (hdf5_resolve_path_spec "/home" _ "/tmp/work").2.1 rfl,
   (hdf5_resolve_path_spec "/home" _ "/tmp/work").2.2.1 rfl⟩

/-- C3: when the resolved path is not an existing regular file,
`HDF5Driver.run` returns the lookup error naming the missing file, with no
molecule object constructed or loaded (the error carries no molecule and the
driver state is returned unchanged); the statement covers drivers with and
without a configured work directory. -/
theorem hdf5_run_missing_file (fs : String → Bool) (cwd : String) (d : HDF5Driver)
    (h : fs (HDF5Driver.resolvePath cwd d) = false) :
    HDF5Driver.run fs cwd d =
      (.error (.lookupError ("HDF5 file not found: " ++ HDF5Driver.resolvePath cwd d)), d) := by
  simp [HDF5Driver.run, h]

/-- Witness for C3: an empty filesystem, a driver with no work directory. -/
theorem hdf5_run_missing_file_witness :
    HDF5Driver.run (fun _ => false) "/" (HDF5Driver.init none) =
      (.error (.lookupError "HDF5 file not found: molecule.hdf5"), HDF5Driver.init none) :=
  hdf5_run_missing_file (fun _ => false) "/" (HDF5Driver.init none) rfl

/-- C9: `HDF5Driver.run` leaves the driver's stored configuration unchanged,
a second call on the returned state behaves identically, and on success the
result is a fresh molecule object constructed from the resolved path and
loaded. -/
theorem hdf5_run_pure (fs : String → Bool) (cwd : String) (d : HDF5Driver) :
    (HDF5Driver.run fs cwd d).2 = d ∧
    HDF5Driver.run fs cwd (HDF5Driver.run fs cwd d).2 = HDF5Driver.run fs cwd d ∧
    (fs (HDF5Driver.resolvePath cwd d) = true →
      (HDF5Driver.run fs cwd d).1 =
        .ok (QMolecule.load (QMolecule.mkFromFile (HDF5Driver.resolvePath cwd d)))) := by
  have h2 : (HDF5Driver.run fs cwd d).2 = d := by
    simp only [HDF5Driver.run]
    split <;> rfl
  refine ⟨h2, by rw [h2], ?_⟩
  intro htrue
  simp [HDF5Driver.run, htrue]

/-- Witness for C9: a filesystem on which every path exists. -/
theorem hdf5_run_pure_witness :
    (HDF5Driver.run (fun _ => true) "/" (HDF5Driver.init none)).1 =
      .ok (QMolecule.load (QMolecule.mkFromFile "molecule.hdf5")) :=
  (hdf5_run_pure (fun _ => true) "/" (HDF5Driver.init none)).2.2 rfl

/-- C6: an `atoms` argument that is neither a list nor a string makes
`PyQuanteDriver.__init__` fail (library available) with the configuration
error citing the offending value, whatever the remaining arguments are —
in particular before any `.value` dereference or schema validation could
raise. -/
theorem pyquante_invalid_atoms_rejected (r : String) (units : EnumArg UnitsType)
    (charge multiplicity : Int) (basis : EnumArg BasisType) (hf_method : EnumArg HFMethodType)
    (tol : ℚ) (maxiters : Int) :
    pyquanteInit true (.other r) units charge multiplicity basis hf_method tol maxiters =
      .error (.qiskitChemistryError ("Invalid atom input for PYQUANTE Driver '" ++ r ++ "'")) :=
  rfl

/-- C7: instantiating the abstract `VariationalForm` without concrete
overrides of both `__init__` and `construct_circuit` fails with the
abstract-class `TypeError` and produces no object state. -/
theorem variational_form_abstract_instantiation (overridden : List String)
    (h : ¬("__init__" ∈ overridden ∧ "construct_circuit" ∈ overridden)) :
    VariationalForm.tryInstantiate overridden =
      .error (.typeError
        "cannot instantiate abstract class VariationalForm with abstract methods") := by
  have hcond :
      ¬(VariationalForm.abstractmethods.all (fun m => overridden.contains m) = true) := by
    intro hall
    simp only [VariationalForm.abstractmethods, List.all_cons, List.all_nil, Bool.and_true,
      Bool.and_eq_true] at hall
    exact h ⟨by simpa using hall.1, by simpa using hall.2⟩
  simp only [VariationalForm.tryInstantiate, if_neg hcond]

/-- Witness for C7: the direct instantiation, with no overrides at all. -/
theorem variational_form_abstract_instantiation_witness :
    VariationalForm.tryInstantiate [] =
      .error (.typeError
        "cannot instantiate abstract class VariationalForm with abstract methods") :=
  variational_form_abstract_instantiation [] (by simp)

/-- C8: right after the base constructor of `VariationalForm`, the
accessors report zero parameters, zero qubits, empty bounds, no support for
parameterized circuits, and no preferred initial point. -/
theorem variational_form_base_defaults :
    VariationalForm.num_parameters VariationalForm.baseInit = 0 ∧
    VariationalForm.num_qubits VariationalForm.baseInit = 0 ∧
    VariationalForm.parameter_bounds VariationalForm.baseInit = [] ∧
    VariationalForm.support_parameterized_circuit VariationalForm.baseInit = false ∧
    VariationalForm.preferred_init_points VariationalForm.baseInit = none :=
  ⟨rfl, rfl, rfl, rfl, rfl⟩

/-- C10: passing `units`, `basis` or `hf_method` as a plain string (for any
other arguments, including schema-invalid ones) makes `PyQuanteDriver.__init__`
raise `AttributeError` from the `.value` dereference — not a configuration
error, showing the dereference precedes schema validation. -/
theorem pyquante_plain_string_enum_attribute_error :
    (∀ (a su : String) (charge multiplicity : Int) (basis : EnumArg BasisType)
        (hf_method : EnumArg HFMethodType) (tol : ℚ) (maxiters : Int),
      pyquanteInit true (.fromString a) (.raw su) charge multiplicity basis hf_method tol
          maxiters
        = .error (.attributeError "'str' object has no attribute 'value'")) ∧
    (∀ (xs : List String) (su : String) (charge multiplicity : Int) (basis : EnumArg BasisType)
        (hf_method : EnumArg HFMethodType) (tol : ℚ) (maxiters : Int),
      pyquanteInit true (.fromList xs) (.raw su) charge multiplicity basis hf_method tol
          maxiters
        = .error (.attributeError "'str' object has no attribute 'value'")) ∧
    (∀ (a : String) (u : UnitsType) (charge multiplicity : Int) (sb : String)
        (hf_method : EnumArg HFMethodType) (tol : ℚ) (maxiters : Int),
      pyquanteInit true (.fromString a) (.enum u) charge multiplicity (.raw sb) hf_method tol
          maxiters
        = .error (.attributeError "'str' object has no attribute 'value'")) ∧
    (∀ (a : String) (u : UnitsType) (charge multiplicity : Int) (b : BasisType) (sh : String)
        (tol : ℚ) (maxiters : Int),
      pyquanteInit true (.fromString a) (.enum u) charge multiplicity (.enum b) (.raw sh) tol
          maxiters
        = .error (.attributeError "'str' object has no attribute 'value'")) :=
  ⟨fun _ _ _ _ _ _ _ _ => rfl, fun _ _ _ _ _ _ _ _ => rfl, fun _ _ _ _ _ _ _ _ => rfl,
   fun _ _ _ _ _ _ _ _ => rfl⟩

theorem no_newline_append {p s : String} (hp : '\n' ∉ p.data) (hs : '\n' ∉ s.data) :
    '\n' ∉ (p ++ s).data := by
  rw [string_data_append]
  intro hmem
  rcases List.mem_append.mp hmem with h | h
  exacts [hp h, hs h]

theorem pyquanteInitRest_ok_atoms (a : String) (units : EnumArg UnitsType)
    (charge multiplicity : Int) (basis : EnumArg BasisType) (hf_method : EnumArg HFMethodType)
    (tol : ℚ) (maxiters : Int) (d : PyQuanteDriver)
    (h : pyquanteInitRest a units charge multiplicity basis hf_method tol maxiters = .ok d) :
    d._atoms = a := by
  unfold pyquanteInitRest at h
  cases units with
  | raw s => simp [EnumArg.value] at h
  | enum u =>
    cases basis with
    | raw s => simp [EnumArg.value] at h
    | enum b =>
      cases hf_method with
      | raw s => simp [EnumArg.value] at h
      | enum hf =>
        simp only [EnumArg.value] at h
        cases hval : validateSchema a (UnitsType.value u) charge multiplicity
            (BasisType.value b) (HFMethodType.value hf) tol maxiters with
        | error e => rw [hval] at h; simp at h
        | ok v =>
          rw [hval] at h
          simp only [Except.ok.injEq] at h
          rw [← h]

theorem validateSchema_enum (a : String) (u : UnitsType) (charge multiplicity : Int)
    (b : BasisType) (hf : HFMethodType) (tol : ℚ) (maxiters : Int) :
    validateSchema a (UnitsType.value u) charge multiplicity (BasisType.value b)
        (HFMethodType.value hf) tol maxiters =
      if maxiters < 1 then .error (.validationError "maxiters") else .ok () := by
  cases u <;> cases b <;> cases hf <;> rfl

/-- C4 (amended): list-form atom input whose elements contain no newline is
constructed identically to the semicolon-join of the list passed as a
string; and a successfully constructed string-form input stores the input
with every newline replaced by a semicolon. (The unamended claim fails when
a list element itself contains a newline: the list branch does not replace
newlines.) -/
theorem pyquante_atoms_normalization (units : EnumArg UnitsType) (charge multiplicity : Int)
    (basis : EnumArg BasisType) (hf_method : EnumArg HFMethodType) (tol : ℚ) (maxiters : Int) :
    (∀ (L : List String), (∀ x ∈ L, '\n' ∉ x.data) →
      pyquanteInit true (.fromList L) units charge multiplicity basis hf_method tol maxiters =
        pyquanteInit true (.fromString (pyJoin ";" L)) units charge multiplicity basis
          hf_method tol maxiters) ∧
    (∀ (s : String) (d : PyQuanteDriver),
      pyquanteInit true (.fromString s) units charge multiplicity basis hf_method tol maxiters
          = .ok d →
      d._atoms = replaceNewlines s) := by
  constructor
  · intro L hL
    simp only [pyquanteInit, if_true]
    rw [replaceNewlines_pyJoin L hL]
  · intro s d h
    simp only [pyquanteInit, if_true] at h
    exact pyquanteInitRest_ok_atoms _ _ _ _ _ _ _ _ _ h

/-- Witness for C4 (amended): a two-atom list without embedded newlines, and
a string input with an embedded newline. -/
theorem pyquante_atoms_normalization_witness :
    pyquanteInit true (.fromList ["H 0.0 0.0 0.0", "H 0.0 0.0 0.735"]) (.enum .ANGSTROM) 0 1
        (.enum .BSTO3G) (.enum .RHF) 1 100 =
      pyquanteInit true (.fromString (pyJoin ";" ["H 0.0 0.0 0.0", "H 0.0 0.0 0.735"]))
        (.enum .ANGSTROM) 0 1 (.enum .BSTO3G) (.enum .RHF) 1 100 ∧
    ({ _atoms := "H 0.0 0.0 0.0;H 0.0 0.0 0.735", _units := "Angstrom", _charge := 0,
       _multiplicity := 1, _basis := "sto3g", _hf_method := "rhf", _tol := 1,
       _maxiters := 100 } : PyQuanteDriver)._atoms
      = replaceNewlines "H 0.0 0.0 0.0\nH 0.0 0.0 0.735" :=
  ⟨(pyquante_atoms_normalization (.enum .ANGSTROM) 0 1 (.enum .BSTO3G) (.enum .RHF) 1 100).1
      ["H 0.0 0.0 0.0", "H 0.0 0.0 0.735"] (by decide),
   (pyquante_atoms_normalization (.enum .ANGSTROM) 0 1 (.enum .BSTO3G) (.enum .RHF) 1 100).2
      "H 0.0 0.0 0.0\nH 0.0 0.0 0.735" _ rfl⟩

/-- Counterexample to C4 as stated: for the singleton list whose one atom
string contains a newline, list-form construction stores the newline
unchanged while the semicolon-joined string form stores it replaced by a
semicolon, and the two stored strings differ. -/
theorem pyquante_atoms_list_newline_counterexample :
    (pyquanteInit true (.fromList ["H 0.0 0.0 0.0\nH 0.0 0.0 0.735"]) (.enum .ANGSTROM) 0 1
        (.enum .BSTO3G) (.enum .RHF) 1 100).map (fun d => d._atoms)
      = .ok "H 0.0 0.0 0.0\nH 0.0 0.0 0.735" ∧
    (pyquanteInit true (.fromString (pyJoin ";" ["H 0.0 0.0 0.0\nH 0.0 0.0 0.735"]))
        (.enum .ANGSTROM) 0 1 (.enum .BSTO3G) (.enum .RHF) 1 100).map (fun d => d._atoms)
      = .ok "H 0.0 0.0 0.0;H 0.0 0.0 0.735" ∧
    ("H 0.0 0.0 0.0\nH 0.0 0.0 0.735" : String) ≠ "H 0.0 0.0 0.0;H 0.0 0.0 0.735" :=
  ⟨rfl, rfl, by decide⟩

/-- Counterexample to C5 as stated: a configuration whose `tol` is `-1`
(not a positive real, all other fields valid) is accepted — the schema
declares no bound on `tol`, so construction succeeds instead of failing. -/
theorem pyquante_nonpositive_tol_accepted :
    pyquanteInit true (.fromString "H 0.0 0.0 0.0; H 0.0 0.0 0.735") (.enum .ANGSTROM) 0 1
        (.enum .BSTO3G) (.enum .RHF) (-1) 100 =
      .ok { _atoms := "H 0.0 0.0 0.0; H 0.0 0.0 0.735", _units := "Angstrom", _charge := 0,
            _multiplicity := 1, _basis := "sto3g", _hf_method := "rhf", _tol := -1,
            _maxiters := 100 } ∧
    ¬ ((0 : ℚ) < -1) :=
  ⟨rfl, by norm_num⟩

/-- C5 (amended): with enum-valued `units`, `basis` and `hf_method`, a
`maxiters` below 1 fails schema validation with a configuration error
naming `maxiters`; any `maxiters ≥ 1` is accepted whatever the value of
`tol`, which the schema only constrains to be a number. -/
theorem pyquante_maxiters_validation (s : String) (u : UnitsType) (charge multiplicity : Int)
    (b : BasisType) (hf : HFMethodType) (tol : ℚ) (maxiters : Int) :
    (maxiters < 1 →
      pyquanteInit true (.fromString s) (.enum u) charge multiplicity (.enum b) (.enum hf) tol
          maxiters = .error (.validationError "maxiters")) ∧
    (1 ≤ maxiters →
      ∃ d,
        pyquanteInit true (.fromString s) (.enum u) charge multiplicity (.enum b) (.enum hf)
            tol maxiters = .ok d ∧
        d._tol = tol ∧ d._maxiters = maxiters) := by
  constructor
  · intro hmi
    simp [pyquanteInit, pyquanteInitRest, EnumArg.value, validateSchema_enum, if_pos hmi]
  · intro hmi
    have hnot : ¬ (maxiters < 1) := not_lt.mpr hmi
    refine ⟨{ _atoms := replaceNewlines s, _units := UnitsType.value u, _charge := charge,
              _multiplicity := multiplicity, _basis := BasisType.value b,
              _hf_method := HFMethodType.value hf, _tol := tol, _maxiters := maxiters },
            ?_, rfl, rfl⟩
    simp [pyquanteInit, pyquanteInitRest, EnumArg.value, validateSchema_enum, if_neg hnot]

/-- Witness for C5 (amended): `maxiters = 0` is rejected naming `maxiters`;
`maxiters = 100` is accepted even with `tol = -1`. -/
theorem pyquante_maxiters_validation_witness :
    pyquanteInit true (.fromString "H 0.0 0.0 0.0; H 0.0 0.0 0.735") (.enum .ANGSTROM) 0 1
        (.enum .BSTO3G) (.enum .RHF) 1 0 = .error (.validationError "maxiters") ∧
    ∃ d,
      pyquanteInit true (.fromString "H 0.0 0.0 0.0; H 0.0 0.0 0.735") (.enum .ANGSTROM) 0 1
          (.enum .BSTO3G) (.enum .RHF) (-1) 100 = .ok d ∧
      d._tol = -1 ∧ d._maxiters = 100 :=
  ⟨(pyquante_maxiters_validation "H 0.0 0.0 0.0; H 0.0 0.0 0.735" .ANGSTROM 0 1 .BSTO3G .RHF
      1 0).1 (by decide),
   (pyquante_maxiters_validation "H 0.0 0.0 0.0; H 0.0 0.0 0.735" .ANGSTROM 0 1 .BSTO3G .RHF
      (-1) 100).2 (by decide)⟩

/-- C1: for every successfully constructed `PyQuanteDriver`, `run` returns
the molecule produced by the delegated integral computation (payload
preserved) with provenance name `"PYQUANTE"` and provenance configuration
equal to the newline-join of the eight `field=value` entries in declaration
order followed by a trailing blank entry; when no rendered value contains a
newline, splitting the configuration on newlines recovers exactly the eight
lines plus the trailing blank line; and for the example
`atoms="H 0.0 0.0 0.0; H 0.0 0.0 0.735"` with defaults, the provenance name
is `"PYQUANTE"` and the configuration's first line is
`"atoms=H 0.0 0.0 0.0; H 0.0 0.0 0.735"`. -/
theorem pyquante_run_provenance :
    (∀ (available : Bool) (atoms : AtomsArg) (units : EnumArg UnitsType)
        (charge multiplicity : Int) (basis : EnumArg BasisType)
        (hf_method : EnumArg HFMethodType) (tol : ℚ) (maxiters : Int) (d : PyQuanteDriver),
      pyquanteInit available atoms units charge multiplicity basis hf_method tol maxiters
          = .ok d →
      ∀ (fmtF : ℚ → String) (compute_integrals : IntegralArgs → QMolecule),
        (PyQuanteDriver.run fmtF compute_integrals d).origin_driver_name = "PYQUANTE" ∧
        (PyQuanteDriver.run fmtF compute_integrals d).origin_driver_config =
          pyJoin "\n"
            ["atoms=" ++ d._atoms, "units=" ++ d._units, "charge=" ++ toString d._charge,
             "multiplicity=" ++ toString d._multiplicity, "basis=" ++ d._basis,
             "hf_method=" ++ d._hf_method, "tol=" ++ fmtF d._tol,
             "maxiters=" ++ toString d._maxiters, ""] ∧
        (PyQuanteDriver.run fmtF compute_integrals d).payload =
          (compute_integrals (PyQuanteDriver.integralArgs d)).payload) ∧
    (∀ (d : PyQuanteDriver) (fmtF : ℚ → String)
        (compute_integrals : IntegralArgs → QMolecule),
      '\n' ∉ d._atoms.data → '\n' ∉ d._units.data → '\n' ∉ (toString d._charge).data →
      '\n' ∉ (toString d._multiplicity).data → '\n' ∉ d._basis.data →
      '\n' ∉ d._hf_method.data → '\n' ∉ (fmtF d._tol).data →
      '\n' ∉ (toString d._maxiters).data →
      splitOnNewlines (PyQuanteDriver.run fmtF compute_integrals d).origin_driver_config =
        ["atoms=" ++ d._atoms, "units=" ++ d._units, "charge=" ++ toString d._charge,
         "multiplicity=" ++ toString d._multiplicity, "basis=" ++ d._basis,
         "hf_method=" ++ d._hf_method, "tol=" ++ fmtF d._tol,
         "maxiters=" ++ toString d._maxiters, ""]) ∧
    (∀ (fmtF : ℚ → String) (compute_integrals : IntegralArgs → QMolecule),
      (pyquanteInit true (.fromString "H 0.0 0.0 0.0; H 0.0 0.0 0.735") (.enum .ANGSTROM) 0 1
          (.enum .BSTO3G) (.enum .RHF) (1 / 100000000) 100).map
          (fun d => (PyQuanteDriver.run fmtF compute_integrals d).origin_driver_name)
        = .ok "PYQUANTE" ∧
      (pyquanteInit true (.fromString "H 0.0 0.0 0.0; H 0.0 0.0 0.735") (.enum .ANGSTROM) 0 1
          (.enum .BSTO3G) (.enum .RHF) (1 / 100000000) 100).map
          (fun d =>
            firstLineOf (PyQuanteDriver.run fmtF compute_integrals d).origin_driver_config)
        = .ok "atoms=H 0.0 0.0 0.0; H 0.0 0.0 0.735") := by
  refine ⟨?_, ?_, ?_⟩
  · intro _ _ _ _ _ _ _ _ _ _ _ _ _
    exact ⟨rfl, rfl, rfl⟩
  · intro d fmtF compute_integrals h1 h2 h3 h4 h5 h6 h7 h8
    have hcfg : (PyQuanteDriver.run fmtF compute_integrals d).origin_driver_config =
        pyJoin "\n"
          ["atoms=" ++ d._atoms, "units=" ++ d._units, "charge=" ++ toString d._charge,
           "multiplicity=" ++ toString d._multiplicity, "basis=" ++ d._basis,
           "hf_method=" ++ d._hf_method, "tol=" ++ fmtF d._tol,
           "maxiters=" ++ toString d._maxiters, ""] := rfl
    rw [hcfg]
    apply splitOnNewlines_pyJoin _ (by simp)
    intro x hx
    simp only [List.mem_cons, List.not_mem_nil, or_false] at hx
    rcases hx with rfl | rfl | rfl | rfl | rfl | rfl | rfl | rfl | rfl
    · exact no_newline_append (by decide) h1
    · exact no_newline_append (by decide) h2
    · exact no_newline_append (by decide) h3
    · exact no_newline_append (by decide) h4
    · exact no_newline_append (by decide) h5
    · exact no_newline_append (by decide) h6
    · exact no_newline_append (by decide) h7
    · exact no_newline_append (by decide) h8
    · decide
  · intro fmtF compute_integrals
    have hinit : pyquanteInit true (.fromString "H 0.0 0.0 0.0; H 0.0 0.0 0.735")
        (.enum .ANGSTROM) 0 1 (.enum .BSTO3G) (.enum .RHF) (1 / 100000000) 100 =
        .ok ({ _atoms := "H 0.0 0.0 0.0; H 0.0 0.0 0.735", _units := "Angstrom", _charge := 0,
               _multiplicity := 1, _basis := "sto3g", _hf_method := "rhf",
               _tol := 1 / 100000000, _maxiters := 100 } : PyQuanteDriver) := rfl
    rw [hinit]
    refine ⟨rfl, ?_⟩
    show Except.ok (firstLineOf (("atoms=H 0.0 0.0 0.0; H 0.0 0.0 0.735" : String) ++ "\n" ++
        pyJoin "\n"
          ["units=Angstrom", "charge=0", "multiplicity=1", "basis=sto3g", "hf_method=rhf",
           "tol=" ++ fmtF (1 / 100000000), "maxiters=100", ""])) = _
    rw [firstLineOf_append _ _ (by decide)]

/-- Witness for C1: the example configuration, a rendering of the default
tolerance as `1e-08`, and an integral computation recording its inputs. -/
theorem pyquante_run_provenance_witness :
    (PyQuanteDriver.run (fun _ => "1e-08")
        (fun args => { origin_driver_name := "", origin_driver_config := "",
                       payload := .integrals args })
        { _atoms := "H 0.0 0.0 0.0; H 0.0 0.0 0.735", _units := "Angstrom", _charge := 0,
          _multiplicity := 1, _basis := "sto3g", _hf_method := "rhf", _tol := 1 / 100000000,
          _maxiters := 100 }).origin_driver_name = "PYQUANTE" ∧
    splitOnNewlines (PyQuanteDriver.run (fun _ => "1e-08")
        (fun args => { origin_driver_name := "", origin_driver_config := "",
                       payload := .integrals args })
        { _atoms := "H 0.0 0.0 0.0; H 0.0 0.0 0.735", _units := "Angstrom", _charge := 0,
          _multiplicity := 1, _basis := "sto3g", _hf_method := "rhf", _tol := 1 / 100000000,
          _maxiters := 100 }).origin_driver_config =
      ["atoms=H 0.0 0.0 0.0; H 0.0 0.0 0.735", "units=Angstrom", "charge=0", "multiplicity=1",
       "basis=sto3g", "hf_method=rhf", "tol=1e-08", "maxiters=100", ""] :=
  ⟨(pyquante_run_provenance.1 true (.fromString "H 0.0 0.0 0.0; H 0.0 0.0 0.735")
      (.enum .ANGSTROM) 0 1 (.enum .BSTO3G) (.enum .RHF) (1 / 100000000) 100 _ rfl
      (fun _ => "1e-08")
      (fun args => { origin_driver_name := "", origin_driver_config := "",
                     payload := .integrals args })).1,
   pyquante_run_provenance.2.1
      { _atoms := "H 0.0 0.0 0.0; H 0.0 0.0 0.735", _units := "Angstrom", _charge := 0,
        _multiplicity := 1, _basis := "sto3g", _hf_method := "rhf", _tol := 1 / 100000000,
        _maxiters := 100 }
      (fun _ => "1e-08")
      (fun args => { origin_driver_name := "", origin_driver_config := "",
                     payload := .integrals args })
      (by decide) (by decide) (by decide) (by decide) (by decide) (by decide) (by decide)
      (by decide)⟩
